import Mathlib

/-!
Shallow embedding of the fmtor crate (src/src/lib.rs).

The crate defines three wrapper types over a borrowed Option —
MaybeFormat (from fmt_or_empty), MaybeFormatOr (from fmt_or) and
MaybeFormatOrElse (from fmt_or_else) — and, via the impl_fmt_traits
macro, one conditional implementation of each of the nine format
traits (Binary, Debug, Display, LowerExp, LowerHex, Octal, Pointer,
UpperExp, UpperHex) for each wrapper.

A format-trait implementation of one mode on a type T is embedded as a
function T → ρ → σ, where ρ stands for the state of the formatter
passed to fmt (the directives width/precision/fill/alignment/flags
together with the output sink) and σ for the outcome of the call
(fmt Result plus whatever was written to the sink).  The wrapper fmt
bodies below transcribe the macro body at src/src/lib.rs lines 229-272.

To evaluate concrete scenarios we also model the relevant part of
Rust's core::fmt text production: the directives of a Formatter, the
Formatter pad routine used by the str Display implementation, the
Formatter pad_integral routine used by the integer implementations,
and the i32 implementations of the numeric modes (two's-complement
digits for the radix modes, decimal with sign for Display/Debug,
scientific notation for the exponent modes).  In this concrete
instance ρ = FmtSpec and σ = String.
-/

namespace Fmtor

/-- The nine formatting modes: the format traits the impl_fmt_traits
macro is instantiated with at src/src/lib.rs line 272. -/
inductive Mode
  | display
  | debug
  | binary
  | octal
  | lowerHex
  | upperHex
  | lowerExp
  | upperExp
  | pointer
deriving DecidableEq

/-- Alignment directive of a Formatter. -/
inductive Align
  | left
  | center
  | right
deriving DecidableEq

/-- The formatting directives carried by a core::fmt::Formatter:
fill character, alignment, the plus-sign flag, the alternate flag,
the sign-aware-zero-padding flag, minimum width and precision.
Defaults are those of an unadorned format string. -/
structure FmtSpec where
  fill : Char := ' '
  align : Option Align := none
  signPlus : Bool := false
  alternate : Bool := false
  zeroPad : Bool := false
  width : Option Nat := none
  precision : Option Nat := none
deriving DecidableEq

/-- n copies of the fill character c. -/
def fillStr (c : Char) (n : Nat) : String :=
  String.mk (List.replicate n c)

/-- Model of Formatter::pad, the routine the str Display implementation
delegates to: precision truncates to that many characters, then width
pads with the fill character, aligned per the alignment directive with
Left as the default for strings. -/
def padStr (f : FmtSpec) (s : String) : String :=
  let t := match f.precision with
    | some p => String.mk (s.data.take p)
    | none => s
  match f.width with
  | none => t
  | some w =>
    if t.length ≥ w then t
    else
      let padding := w - t.length
      match f.align.getD Align.left with
      | Align.left => t ++ fillStr f.fill padding
      | Align.right => fillStr f.fill padding ++ t
      | Align.center =>
        fillStr f.fill (padding / 2) ++ t ++ fillStr f.fill ((padding + 1) / 2)

/-- Model of Formatter::pad_integral, the routine the integer format
implementations delegate to.  A minus sign (or a plus sign under the
plus flag) and, under the alternate flag, the radix marker pfx are
prepended to the digit string buf; a width directive pads the result,
with Right the default alignment for numbers, and under the
sign-aware-zero flag the padding is made of zeros placed between the
sign/marker and the digits. -/
def padIntegral (f : FmtSpec) (isNonneg : Bool) (pfx : String) (buf : String) : String :=
  let sign := if !isNonneg then "-" else if f.signPlus then "+" else ""
  let mark := if f.alternate then pfx else ""
  let body := sign ++ mark ++ buf
  match f.width with
  | none => body
  | some minW =>
    if body.length ≥ minW then body
    else if f.zeroPad then sign ++ mark ++ fillStr '0' (minW - body.length) ++ buf
    else
      let padding := minW - body.length
      match f.align.getD Align.right with
      | Align.left => body ++ fillStr f.fill padding
      | Align.right => fillStr f.fill padding ++ body
      | Align.center =>
        fillStr f.fill (padding / 2) ++ body ++ fillStr f.fill ((padding + 1) / 2)

/-- The two's-complement bit pattern of an i32 value, as a Nat: the
radix modes of signed integers format the reinterpreted unsigned
value. -/
def i32Bits (n : Int) : Nat :=
  (n % 4294967296).toNat

/-- i32 Display implementation: decimal digits of the magnitude,
sign handled by pad_integral. -/
def intDisplay (n : Int) (f : FmtSpec) : String :=
  padIntegral f (decide (0 ≤ n)) "" (Nat.toDigits 10 n.natAbs).asString

/-- i32 Debug implementation: integers format in Debug exactly as in
Display. -/
def intDebug (n : Int) (f : FmtSpec) : String :=
  intDisplay n f

/-- i32 Binary implementation: base-2 digits of the bit pattern,
alternate marker 0b. -/
def intBinary (n : Int) (f : FmtSpec) : String :=
  padIntegral f true "0b" (Nat.toDigits 2 (i32Bits n)).asString

/-- i32 Octal implementation: base-8 digits of the bit pattern,
alternate marker 0o. -/
def intOctal (n : Int) (f : FmtSpec) : String :=
  padIntegral f true "0o" (Nat.toDigits 8 (i32Bits n)).asString

/-- i32 LowerHex implementation: base-16 digits of the bit pattern in
lower case, alternate marker 0x. -/
def intLowerHex (n : Int) (f : FmtSpec) : String :=
  padIntegral f true "0x" (Nat.toDigits 16 (i32Bits n)).asString

/-- i32 UpperHex implementation: base-16 digits of the bit pattern in
upper case, alternate marker 0x. -/
def intUpperHex (n : Int) (f : FmtSpec) : String :=
  padIntegral f true "0x" ((Nat.toDigits 16 (i32Bits n)).map Char.toUpper).asString

/-- Splits a positive decimal number into its trailing zeros and the
remaining digits: stripZeros fuel n = (m, z) with n = m * 10 ^ z and m
not a positive multiple of 10, when fuel bounds the number of trailing
zeros. -/
def stripZeros : Nat → Nat → Nat × Nat
  | 0, n => (n, 0)
  | fuel + 1, n =>
    if n != 0 && n % 10 == 0 then
      let p := stripZeros fuel (n / 10)
      (p.1, p.2 + 1)
    else (n, 0)

/-- Scientific-notation digit string of a Nat as produced by the
integer exponent-format implementations: mantissa with the decimal
point after the first digit (omitted when a single digit remains after
stripping trailing zeros), then the exponent character, then the
decimal exponent. -/
def expStr (e : Char) (n : Nat) : String :=
  let p := stripZeros n n
  let ds := Nat.toDigits 10 p.1
  let mantissa := match ds with
    | [] => "0"
    | [d] => String.mk [d]
    | d :: rest => String.mk (d :: '.' :: rest)
  mantissa ++ String.mk [e] ++ (Nat.toDigits 10 (ds.length - 1 + p.2)).asString

/-- i32 LowerExp implementation. -/
def intLowerExp (n : Int) (f : FmtSpec) : String :=
  padIntegral f (decide (0 ≤ n)) "" (expStr 'e' n.natAbs)

/-- i32 UpperExp implementation. -/
def intUpperExp (n : Int) (f : FmtSpec) : String :=
  padIntegral f (decide (0 ≤ n)) "" (expStr 'E' n.natAbs)

/-- str Display implementation: Formatter::pad on the string. -/
def strDisplay (s : String) (f : FmtSpec) : String :=
  padStr f s

/-- The type returned from FmtOr::fmt_or_empty (src/src/lib.rs line
47-48): holds the borrowed Option and nothing else.  The reference is
modelled by the referenced value; the derived Eq/PartialEq is modelled
by the derived DecidableEq. -/
structure MaybeFormat (T : Type) where
  opt : Option T
deriving DecidableEq

/-- The type returned from FmtOr::fmt_or (src/src/lib.rs line 49-50):
the borrowed Option together with the owned fallback value. -/
structure MaybeFormatOr (T U : Type) where
  opt : Option T
  fallback : U

/-- The type returned from FmtOr::fmt_or_else (src/src/lib.rs line
51-52): the borrowed Option together with the owned producer closure,
a pure Fn() -> U modelled as Unit → U. -/
structure MaybeFormatOrElse (T U : Type) where
  opt : Option T
  producer : Unit → U

/-- FmtOr::fmt_or_empty for Option (src/src/lib.rs lines 208-211). -/
def fmt_or_empty {T : Type} (opt : Option T) : MaybeFormat T :=
  ⟨opt⟩

/-- FmtOr::fmt_or for Option (src/src/lib.rs lines 212-218). -/
def fmt_or {T U : Type} (opt : Option T) (u : U) : MaybeFormatOr T U :=
  ⟨opt, u⟩

/-- FmtOr::fmt_or_else for Option (src/src/lib.rs lines 219-226). -/
def fmt_or_else {T U : Type} (opt : Option T) (f : Unit → U) : MaybeFormatOrElse T U :=
  ⟨opt, f⟩

/-- The fmt body of each format-trait implementation for
MaybeFormatOrElse (src/src/lib.rs lines 253-267): when the Option
holds t, delegate to the mode-M implementation of T on t with the
caller's Formatter out; when it is empty, call the producer once and
Display-format its result with the same Formatter.  fmtT is the mode-M
implementation of T, displayU the Display implementation of the
producer result type U (Display of the reference taken in the source
delegates to Display of the referent). -/
def MaybeFormatOrElse.fmt {T U ρ σ : Type} (w : MaybeFormatOrElse T U)
    (fmtT : T → ρ → σ) (displayU : U → ρ → σ) (out : ρ) : σ :=
  match w.opt with
  | some t => fmtT t out
  | none => displayU (w.producer ()) out

/-- The fmt body of each format-trait implementation for MaybeFormatOr
(src/src/lib.rs lines 242-251): delegate to the MaybeFormatOrElse
implementation built over the same Option with a producer returning a
reference to the stored fallback. -/
def MaybeFormatOr.fmt {T U ρ σ : Type} (w : MaybeFormatOr T U)
    (fmtT : T → ρ → σ) (displayU : U → ρ → σ) (out : ρ) : σ :=
  (fmt_or_else w.opt (fun _ => w.fallback)).fmt fmtT displayU out

/-- The fmt body of each format-trait implementation for MaybeFormat
(src/src/lib.rs lines 232-240): delegate to the MaybeFormatOr
implementation built over the same Option with the empty string as the
fallback.  dispStr is the Display implementation of the str fallback
type. -/
def MaybeFormat.fmt {T ρ σ : Type} (w : MaybeFormat T)
    (fmtT : T → ρ → σ) (dispStr : String → ρ → σ) (out : ρ) : σ :=
  (fmt_or w.opt "").fmt fmtT dispStr out

/-- A per-mode dictionary of format-trait implementations for a type:
d m = some impl models that the type implements the mode-m format
trait with body impl, d m = none that it does not. -/
abbrev FmtDict (T ρ σ : Type) :=
  Mode → Option (T → ρ → σ)

/-- The conditional format-trait implementations the impl_fmt_traits
macro generates for MaybeFormat: for each mode m, an implementation
exists exactly when T has one, and its body is MaybeFormat.fmt over
T's mode-m body; only the Display implementation of str is required of
the fallback side. -/
def MaybeFormat.dict {T ρ σ : Type} (dT : FmtDict T ρ σ)
    (dispStr : String → ρ → σ) : FmtDict (MaybeFormat T) ρ σ :=
  fun m => (dT m).map (fun fmtT w out => w.fmt fmtT dispStr out)

/-- The conditional format-trait implementations for MaybeFormatOr:
for each mode m, an implementation exists exactly when T has one; of
the fallback type U only the Display implementation displayU is
required, for every mode. -/
def MaybeFormatOr.dict {T U ρ σ : Type} (dT : FmtDict T ρ σ)
    (displayU : U → ρ → σ) : FmtDict (MaybeFormatOr T U) ρ σ :=
  fun m => (dT m).map (fun fmtT w out => w.fmt fmtT displayU out)

/-- The conditional format-trait implementations for
MaybeFormatOrElse: for each mode m, an implementation exists exactly
when T has one; of the producer result type U only the Display
implementation displayU is required, for every mode. -/
def MaybeFormatOrElse.dict {T U ρ σ : Type} (dT : FmtDict T ρ σ)
    (displayU : U → ρ → σ) : FmtDict (MaybeFormatOrElse T U) ρ σ :=
  fun m => (dT m).map (fun fmtT w out => w.fmt fmtT displayU out)

/-- The nine-mode dictionary of i32 instantiated at the concrete
Formatter model: i32 implements every format trait except Pointer. -/
def i32Dict : FmtDict Int FmtSpec String :=
  fun m => match m with
  | Mode.display => some intDisplay
  | Mode.debug => some intDebug
  | Mode.binary => some intBinary
  | Mode.octal => some intOctal
  | Mode.lowerHex => some intLowerHex
  | Mode.upperHex => some intUpperHex
  | Mode.lowerExp => some intLowerExp
  | Mode.upperExp => some intUpperExp
  | Mode.pointer => none

/-- The MaybeFormatOrElse fmt body with the producer call made
observable: the same control flow as MaybeFormatOrElse.fmt
(src/src/lib.rs lines 260-266), with the producer given as a state
transformer π → U × π so that its invocations are visible in the final
state (instantiating π with a call counter counts invocations).  The
some branch leaves the state untouched, the none branch applies the
producer to the state exactly once. -/
def MaybeFormatOrElse.fmtTraced {T U ρ σ π : Type} (fmtT : T → ρ → σ)
    (displayU : U → ρ → σ) (opt : Option T) (f : π → U × π)
    (out : ρ) (s : π) : σ × π :=
  match opt with
  | some t => (fmtT t out, s)
  | none => (displayU (f s).1 out, (f s).2)

/-- The semantics of a derived PartialEq on Option (and, through the
reference implementation, on a borrowed Option): empties are equal,
present values compare by the element comparison, mixed cases are
unequal. -/
def optionEq {T : Type} (eqT : T → T → Bool) : Option T → Option T → Bool
  | none, none => true
  | some a, some b => eqT a b
  | _, _ => false

/-- The derived PartialEq of MaybeFormat (src/src/lib.rs line 47):
field-wise comparison of the single field, a reference to the Option,
which compares the referenced Option values. -/
def MaybeFormat.eqModel {T : Type} (eqT : T → T → Bool)
    (a b : MaybeFormat T) : Bool :=
  optionEq eqT a.opt b.opt

/-- Truncating the character data of the empty string leaves the empty
string. -/
theorem mk_take_empty (p : Nat) : String.mk (List.take p "".data) = "" := by
  have h : ("".data : List Char) = [] := rfl
  rw [h, List.take_nil]

/-- Claim C1: Present-value transparency.  For every formatting mode m
of the nine that T implements (hypothesis: T's dictionary carries the
implementation fmtT at m), every value v, and every formatter state
out (carrying any combination of width/precision/alignment/
alternate/fill directives and any sink), formatting any of the three
wrappers built over some v delegates to fmtT v out: the exact text the
mode-m implementation of T would have produced on v directly.  The
wrapper implementation the macro generates at m is moreover exactly
the one built from fmtT. -/
theorem present_value_transparency {T U ρ σ : Type}
    (d : FmtDict T ρ σ) (m : Mode) (fmtT : T → ρ → σ)
    (displayU : U → ρ → σ) (dispStr : String → ρ → σ)
    (v : T) (u : U) (f : Unit → U) (out : ρ)
    (h : d m = some fmtT) :
    MaybeFormat.dict d dispStr m = some (fun w o => w.fmt fmtT dispStr o)
    ∧ (fmt_or_empty (some v)).fmt fmtT dispStr out = fmtT v out
    ∧ (fmt_or (some v) u).fmt fmtT displayU out = fmtT v out
    ∧ (fmt_or_else (some v) f).fmt fmtT displayU out = fmtT v out := by
  refine ⟨?_, rfl, rfl, rfl⟩
  simp [MaybeFormat.dict, h]

/-- Witness for C1 at mode binary on i32, value 7, fallback "Null",
default directives. -/
theorem present_value_transparency_witness :
    i32Dict Mode.binary = some intBinary
    ∧ (MaybeFormat.dict i32Dict strDisplay Mode.binary
        = some (fun w o => w.fmt intBinary strDisplay o)
      ∧ (fmt_or_empty (some (7 : Int))).fmt intBinary strDisplay {} = intBinary 7 {}
      ∧ (fmt_or (some (7 : Int)) "Null").fmt intBinary strDisplay {} = intBinary 7 {}
      ∧ (fmt_or_else (some (7 : Int)) (fun _ => "Null")).fmt intBinary strDisplay {}
          = intBinary 7 {}) :=
  ⟨rfl, present_value_transparency i32Dict Mode.binary intBinary strDisplay
    strDisplay 7 "Null" (fun _ => "Null") {} rfl⟩

/-- Claim C2, counterexample: formatting fmt_or_empty of an absent
i32 in binary mode with a width directive of 1 yields one fill
character, not the empty string: the empty-string fallback is
Display-formatted through Formatter::pad, which honours the width
directive. -/
theorem absent_empty_counterexample :
    ¬ ((fmt_or_empty (none : Option Int)).fmt intBinary strDisplay
        { width := some 1 } = "") := by
  decide

/-- Claim C2 as amended: for every formatting mode (any mode-M
implementation fmtT of any inner type T) and every combination of
directives with no width given, formatting fmt_or_empty of an absent
optional yields the empty string; a width directive instead yields
that many fill characters, the padding of the empty fallback. -/
theorem absent_empty_law {T : Type} (fmtT : T → FmtSpec → String)
    (f : FmtSpec) (h : f.width = none) :
    (fmt_or_empty (none : Option T)).fmt fmtT strDisplay f = "" := by
  show padStr f "" = ""
  obtain ⟨fl, al, sp, alt, zp, w, prec⟩ := f
  simp only at h
  subst h
  cases prec with
  | none => rfl
  | some p => exact mk_take_empty p

/-- Witness for C2's amended law at mode binary on i32 with default
directives. -/
theorem absent_empty_law_witness :
    ({} : FmtSpec).width = none
    ∧ (fmt_or_empty (none : Option Int)).fmt intBinary strDisplay {} = "" :=
  ⟨rfl, absent_empty_law intBinary {} rfl⟩

/-- Claim C3: Absent-fallback law.  For every mode-M implementation
fmtT of the inner type (any of the nine, left arbitrary), every
fallback u whose type has the Display implementation displayU, and
every formatter state out, formatting fmt_or of an absent optional
yields exactly displayU u out — the fallback's human-readable
rendering with the caller's directives — regardless of the requested
mode; likewise the fmt_or_else wrapper renders its produced fallback
through Display only. -/
theorem absent_fallback_law {T U ρ σ : Type} (fmtT : T → ρ → σ)
    (displayU : U → ρ → σ) (u : U) (f : Unit → U) (out : ρ) :
    (fmt_or (none : Option T) u).fmt fmtT displayU out = displayU u out
    ∧ (fmt_or_else (none : Option T) f).fmt fmtT displayU out
        = displayU (f ()) out :=
  ⟨rfl, rfl⟩

/-- Claim C4: Producer-invocation law.  In the traced transcription of
the MaybeFormatOrElse fmt body, one formatting call over an absent
optional applies the producer to the incoming state exactly once and
yields the Display rendering of the produced value, while over a
present value the state is returned untouched — the producer is never
invoked — and the result is the value's mode-M rendering; with a
counting producer the call count rises from 0 to exactly 1 on the
absent path.  The pure fmt body agrees. -/
theorem producer_invocation_law {T U ρ σ π : Type} (fmtT : T → ρ → σ)
    (displayU : U → ρ → σ) (f : π → U × π) (g : Unit → U) (v : T) (u : U)
    (out : ρ) (s : π) :
    MaybeFormatOrElse.fmtTraced fmtT displayU (none : Option T) f out s
      = (displayU (f s).1 out, (f s).2)
    ∧ MaybeFormatOrElse.fmtTraced fmtT displayU (some v) f out s
        = (fmtT v out, s)
    ∧ MaybeFormatOrElse.fmtTraced fmtT displayU (none : Option T)
        (fun k => (u, k + 1)) out (0 : Nat) = (displayU u out, 1)
    ∧ (fmt_or_else (none : Option T) g).fmt fmtT displayU out
        = displayU (g ()) out
    ∧ (fmt_or_else (some v) g).fmt fmtT displayU out = fmtT v out :=
  ⟨rfl, rfl, rfl, rfl, rfl⟩

/-- Claim C5: Empty-fallback refinement.  For every optional, every
mode-M implementation fmtT of the inner type, every Display
implementation of str, and every formatter state, the fmt body of
MaybeFormat produces exactly what the fmt body of MaybeFormatOr with
the empty-string fallback produces: the source defines the former as
the latter. -/
theorem empty_fallback_refinement {T ρ σ : Type} (fmtT : T → ρ → σ)
    (dispStr : String → ρ → σ) (opt : Option T) (out : ρ) :
    (fmt_or_empty opt).fmt fmtT dispStr out
      = (fmt_or opt "").fmt fmtT dispStr out :=
  rfl

/-- Claim C6: Error propagation.  With the outcome of a formatting
call modelled as Except ε α (ε the sink's error, α the success value
together with whatever state the sink reached), each wrapper's fmt
returns exactly the delegated call's result — the inner value's mode-M
result when present, the fallback's Display result when absent — so it
is an error exactly when the delegated call is, with the very same
error, and the wrapper introduces no failure of its own (the fmt
bodies are total functions). -/
theorem error_propagation {T U ρ ε α : Type} (fmtT : T → ρ → Except ε α)
    (displayU : U → ρ → Except ε α) (dispStr : String → ρ → Except ε α)
    (v : T) (u : U) (f : Unit → U) (out : ρ) :
    ((fmt_or_empty (some v)).fmt fmtT dispStr out = fmtT v out)
    ∧ ((fmt_or_empty (none : Option T)).fmt fmtT dispStr out = dispStr "" out)
    ∧ ((fmt_or (some v) u).fmt fmtT displayU out = fmtT v out)
    ∧ ((fmt_or (none : Option T) u).fmt fmtT displayU out = displayU u out)
    ∧ ((fmt_or_else (some v) f).fmt fmtT displayU out = fmtT v out)
    ∧ ((fmt_or_else (none : Option T) f).fmt fmtT displayU out
        = displayU (f ()) out)
    ∧ (((fmt_or (some v) u).fmt fmtT displayU out).isOk ↔ (fmtT v out).isOk)
    ∧ (∀ e : ε, (fmt_or (none : Option T) u).fmt fmtT displayU out
        = Except.error e ↔ displayU u out = Except.error e) :=
  ⟨rfl, rfl, rfl, rfl, rfl, rfl, Iff.rfl, fun _ => Iff.rfl⟩

/-- Claim C7: Conditional mode conformance.  For every mode m of the
nine, each wrapper's dictionary carries an implementation at m exactly
when the inner type's dictionary does; the wrapper dictionaries are
built from the inner dictionary and a single Display implementation of
the fallback (or producer-result) type, which is all the fallback side
is ever required to provide. -/
theorem conditional_mode_conformance {T U ρ σ : Type} (dT : FmtDict T ρ σ)
    (dispStr : String → ρ → σ) (displayU : U → ρ → σ) :
    ∀ m : Mode,
      ((MaybeFormat.dict dT dispStr m).isSome = (dT m).isSome
      ∧ (MaybeFormatOr.dict dT displayU m).isSome = (dT m).isSome
      ∧ (MaybeFormatOrElse.dict (U := U) dT displayU m).isSome
          = (dT m).isSome) := by
  intro m
  cases h : dT m <;>
    simp [MaybeFormat.dict, MaybeFormatOr.dict, MaybeFormatOrElse.dict, h]

/-- Claim C8: Literal scenarios, matching the crate's tests: a present
7 formats in Debug as 7, in Binary as 111 and in alternate Binary as
0b111; fmt_or of an absent i32 with fallback "Null" formats in
alternate LowerHex as Null; fmt_or of a present 10 with the same
fallback formats in alternate LowerHex as 0xa. -/
theorem literal_scenarios :
    (fmt_or (some (7 : Int)) "").fmt intDebug strDisplay {} = "7"
    ∧ (fmt_or (some (7 : Int)) "").fmt intBinary strDisplay {} = "111"
    ∧ (fmt_or (some (7 : Int)) "").fmt intBinary strDisplay
        { alternate := true } = "0b111"
    ∧ (fmt_or (none : Option Int) "Null").fmt intLowerHex strDisplay
        { alternate := true } = "Null"
    ∧ (fmt_or (some (10 : Int)) "Null").fmt intLowerHex strDisplay
        { alternate := true } = "0xa" := by
  decide

/-- Claim C9: Value-fallback-to-lazy refinement.  For every optional,
fallback u, mode-M implementation fmtT and formatter state, the fmt
body of MaybeFormatOr produces exactly what the fmt body of
MaybeFormatOrElse with a producer returning the stored fallback
produces: the source defines the former as the latter, borrowing the
stored fallback. -/
theorem value_fallback_lazy_refinement {T U ρ σ : Type} (fmtT : T → ρ → σ)
    (displayU : U → ρ → σ) (opt : Option T) (u : U) (out : ρ) :
    (fmt_or opt u).fmt fmtT displayU out
      = (fmt_or_else opt (fun _ => u)).fmt fmtT displayU out :=
  rfl

/-- Claim C10: Equality on the empty-fallback wrapper.  For element
types with decidable equality, the derived equality of MaybeFormat
holds exactly when the borrowed optional values are equal, both for
the modelled derived PartialEq and for equality of the wrapper values
themselves. -/
theorem wrapper_equality {T : Type} [DecidableEq T] (a b : MaybeFormat T) :
    (MaybeFormat.eqModel (fun x y => decide (x = y)) a b = true ↔ a.opt = b.opt)
    ∧ (a = b ↔ a.opt = b.opt) := by
  obtain ⟨oa⟩ := a
  obtain ⟨ob⟩ := b
  constructor
  · cases oa <;> cases ob <;> simp [MaybeFormat.eqModel, optionEq]
  · simp [MaybeFormat.mk.injEq]

end Fmtor
